import Mathlib

/-!
Shallow embedding of the request-to-storage mapping layer of the Todo CRUD
service (src/model.rs and src/handler.rs).

Modelling conventions:
* A stored row of the table `todo_db.todos` is a `Row` with the six typed
  columns `(id, title, content, completed, created_at, updated_at)`.
  The store is a `List Row`; Scylla's `id` is the primary key, so
  `INSERT` is an upsert on `id` and `UPDATE ... WHERE id = ?` rewrites the
  rows with that key.
* `chrono::DateTime<Utc>` values are nanoseconds since the epoch (`Int`);
  `CqlTimestamp` values are milliseconds since the epoch (`Int`).
  `timestamp_millis` and `from_timestamp_millis` are the chrono conversions
  used by the handlers.
* Each Scylla query in a handler can fail with an error string; the outcome
  of each query round trip is injected as a `DbOutcome` argument, and the
  values returned by a successful query are computed from the store.
  The freshly generated UUID and the current time (`Utc::now()`) are likewise
  injected as arguments.
* `usize` values (`page`, `limit`) are `Nat`; the `-` in the pagination
  offset is modelled by `checkedSub`, which is `none` exactly when the Rust
  subtraction overflows (a panic in debug builds); in that case the handler
  produces no response, so `todos_list_handler` returns an `Option`.
* Rows read back by SELECT are well typed here, so the row-decoding step of
  the Rust code (which silently skips undecodable rows) always succeeds.
-/

namespace Crud

/-- `chrono::DateTime::timestamp_millis`: nanoseconds to milliseconds, floor. -/
def timestamp_millis (dt : Int) : Int := Int.fdiv dt 1000000

/-- `chrono::DateTime::from_timestamp_millis`: milliseconds back to a datetime. -/
def from_timestamp_millis (ms : Int) : Int := ms * 1000000

/-- One stored row of `todo_db.todos`. -/
structure Row where
  id : String
  title : String
  content : String
  completed : Bool
  created_at : Int
  updated_at : Int
deriving DecidableEq

/-- `model.rs` `Todo` (the wire entity). -/
structure Todo where
  id : Option String
  title : String
  content : String
  completed : Option Bool
  createdAt : Option Int
  updatedAt : Option Int
deriving DecidableEq

/-- `model.rs` `UpdateTodoSchema` (the PATCH body). -/
structure UpdateTodoSchema where
  title : Option String
  content : Option String
  completed : Option Bool
deriving DecidableEq

/-- `model.rs` `QueryOptions` (pagination query parameters). -/
structure QueryOptions where
  page : Option Nat
  limit : Option Nat
deriving DecidableEq

/-- `response.rs` `GenericResponse`. -/
structure GenericResponse where
  status : String
  message : String
deriving DecidableEq

/-- `response.rs` `TodoData`. -/
structure TodoData where
  todo : Todo
deriving DecidableEq

/-- `response.rs` `SingleTodoResponse`. -/
structure SingleTodoResponse where
  status : String
  data : TodoData
deriving DecidableEq

/-- `response.rs` `TodoListResponse`. -/
structure TodoListResponse where
  status : String
  results : Nat
  todos : List Todo
deriving DecidableEq

/-- The HTTP responses the handlers build. -/
inductive HttpResponse where
  | okList (r : TodoListResponse)
  | okSingle (r : SingleTodoResponse)
  | conflict (r : GenericResponse)
  | notFound (r : GenericResponse)
  | internalServerError (r : GenericResponse)
  | noContent
deriving DecidableEq

/-- Outcome of one Scylla query round trip (success, or an error string). -/
inductive DbOutcome where
  | ok
  | fail (e : String)
deriving DecidableEq

/-- Decoding a typed row into a `Todo`, as done in the list/get/edit handlers. -/
def decodeRow (r : Row) : Todo :=
  { id := some r.id
    title := r.title
    content := r.content
    completed := some r.completed
    createdAt := some (from_timestamp_millis r.created_at)
    updatedAt := some (from_timestamp_millis r.updated_at) }

/-- Rust `usize` subtraction: defined only when no overflow occurs. -/
def checkedSub (a b : Nat) : Option Nat :=
  if b ≤ a then some (a - b) else none

/-- Scylla `INSERT` is an upsert on the primary key `id`. -/
def upsert (store : List Row) (row : Row) : List Row :=
  store.filter (fun r => r.id ≠ row.id) ++ [row]

/-- `GET /todos` (`todos_list_handler`): full scan, decode, in-memory
pagination with `offset = (page - 1) * limit`.  `none` models the `usize`
overflow panic when `page = 0`. -/
def todos_list_handler (opts : QueryOptions) (db : DbOutcome) (store : List Row) :
    Option HttpResponse :=
  let limit := opts.limit.getD 10
  match db with
  | .fail e => some (.internalServerError ⟨"error", "Database error: " ++ e⟩)
  | .ok =>
    let todos := store.map decodeRow
    match checkedSub (opts.page.getD 1) 1 with
    | none => none
    | some pm1 =>
      let offset := pm1 * limit
      let paginated := (todos.drop offset).take limit
      some (.okList ⟨"success", paginated.length, paginated⟩)

/-- `POST /todos` (`create_todo_handler`): duplicate-title check, then insert.
`uuid_id` is the generated UUID string, `datetime` the value of `Utc::now()`,
`checkDb`/`insertDb` the outcomes of the two queries.  Returns the response
and the store after the handler. -/
def create_todo_handler (body : Todo) (uuid_id : String) (datetime : Int)
    (checkDb insertDb : DbOutcome) (store : List Row) : HttpResponse × List Row :=
  let timestamp := timestamp_millis datetime
  let title := body.title
  let content := body.content
  match checkDb with
  | .fail e => (.internalServerError ⟨"error", "Database error: " ++ e⟩, store)
  | .ok =>
    if !(store.filter (fun r => r.title == title)).isEmpty then
      (.conflict ⟨"fail", "Todo with title: '" ++ title ++ "' already exists"⟩, store)
    else
      match insertDb with
      | .fail e => (.internalServerError ⟨"error", "Failed to create todo: " ++ e⟩, store)
      | .ok =>
        let todo : Todo :=
          { id := some uuid_id
            title := title
            content := content
            completed := some false
            createdAt := some datetime
            updatedAt := some datetime }
        (.okSingle ⟨"success", ⟨todo⟩⟩,
          upsert store ⟨uuid_id, title, content, false, timestamp, timestamp⟩)

/-- `GET /todos/{id}` (`get_todo_handler`): select by id, first row or 404. -/
def get_todo_handler (id : String) (db : DbOutcome) (store : List Row) : HttpResponse :=
  match db with
  | .fail e => .internalServerError ⟨"error", "Database error: " ++ e⟩
  | .ok =>
    match (store.filter (fun r => r.id == id)).head? with
    | some row => .okSingle ⟨"success", ⟨decodeRow row⟩⟩
    | none => .notFound ⟨"fail", "Todo with ID: " ++ id ++ " not found"⟩

/-- `PATCH /todos/{id}` (`edit_todo_handler`): fetch, merge by presence,
update.  `datetime` is `Utc::now()` at the edit; `selectDb`/`updateDb` the
outcomes of the two queries. -/
def edit_todo_handler (id : String) (body : UpdateTodoSchema) (datetime : Int)
    (selectDb updateDb : DbOutcome) (store : List Row) : HttpResponse × List Row :=
  match selectDb with
  | .fail e => (.internalServerError ⟨"error", "Database error: " ++ e⟩, store)
  | .ok =>
    match (store.filter (fun r => r.id == id)).head? with
    | none => (.notFound ⟨"fail", "Todo with ID: " ++ id ++ " not found"⟩, store)
    | some row =>
      let existing := decodeRow row
      let timestamp := timestamp_millis datetime
      let new_title := body.title.getD existing.title
      let new_content := body.content.getD existing.content
      let new_completed := body.completed.getD (existing.completed.getD false)
      match updateDb with
      | .fail e => (.internalServerError ⟨"error", "Failed to update todo: " ++ e⟩, store)
      | .ok =>
        let todo : Todo :=
          { id := some id
            title := new_title
            content := new_content
            completed := some new_completed
            createdAt := existing.createdAt
            updatedAt := some datetime }
        (.okSingle ⟨"success", ⟨todo⟩⟩,
          store.map (fun r =>
            if r.id == id then
              { r with title := new_title, content := new_content,
                       completed := new_completed, updated_at := timestamp }
            else r))

/-- `DELETE /todos/{id}` (`delete_todo_handler`): existence check, then delete. -/
def delete_todo_handler (id : String) (checkDb deleteDb : DbOutcome)
    (store : List Row) : HttpResponse × List Row :=
  match checkDb with
  | .fail e => (.internalServerError ⟨"error", "Database error: " ++ e⟩, store)
  | .ok =>
    if (store.filter (fun r => r.id == id)).isEmpty then
      (.notFound ⟨"fail", "Todo with ID: " ++ id ++ " not found"⟩, store)
    else
      match deleteDb with
      | .fail e => (.internalServerError ⟨"error", "Failed to delete todo: " ++ e⟩, store)
      | .ok => (.noContent, store.filter (fun r => r.id ≠ id))

/-- No two stored rows share a title. -/
def titlesUnique (store : List Row) : Prop := (store.map Row.title).Nodup

/-- No two stored rows share an id (the primary-key guarantee). -/
def idsUnique (store : List Row) : Prop := (store.map Row.id).Nodup

instance (store : List Row) : Decidable (titlesUnique store) := by
  unfold titlesUnique; infer_instance

instance (store : List Row) : Decidable (idsUnique store) := by
  unfold idsUnique; infer_instance

/-! Helper lemmas about uniqueness of a projected field. -/

theorem nodup_map_filter {α : Type} (f : Row → α) (p : Row → Bool)
    (store : List Row) (h : (store.map f).Nodup) : ((store.filter p).map f).Nodup :=
  List.Nodup.sublist (List.Sublist.map f (List.filter_sublist store)) h

theorem nodup_map_append_single {α : Type} (f : Row → α) (store : List Row) (row : Row)
    (h : (store.map f).Nodup) (hfresh : ∀ r ∈ store, f r ≠ f row) :
    ((store ++ [row]).map f).Nodup := by
  rw [List.map_append, List.nodup_append]
  refine ⟨h, by simp, ?_⟩
  intro a ha hb
  simp only [List.map_cons, List.map_nil, List.mem_singleton] at hb
  rcases List.mem_map.mp ha with ⟨r, hr, rfl⟩
  exact hfresh r hr hb

/-- The create handler preserves uniqueness of ids and of titles. -/
theorem create_preserves_uniqueness (body : Todo) (uuid_id : String) (datetime : Int)
    (checkDb insertDb : DbOutcome) (store : List Row)
    (hid : idsUnique store) (ht : titlesUnique store) :
    idsUnique (create_todo_handler body uuid_id datetime checkDb insertDb store).2 ∧
    titlesUnique (create_todo_handler body uuid_id datetime checkDb insertDb store).2 := by
  cases checkDb with
  | fail e => simpa [create_todo_handler] using ⟨hid, ht⟩
  | ok =>
    by_cases hdup : (store.filter (fun r => r.title == body.title)).isEmpty = true
    · have hfresh : ∀ r ∈ store, r.title ≠ body.title := by
        intro r hr
        have := List.filter_eq_nil_iff.mp (List.isEmpty_iff.mp hdup) r hr
        simpa using this
      cases insertDb with
      | fail e => simpa [create_todo_handler, hdup] using ⟨hid, ht⟩
      | ok =>
        have hres : (create_todo_handler body uuid_id datetime .ok .ok store).2 =
            store.filter (fun r => r.id ≠ uuid_id) ++
              [⟨uuid_id, body.title, body.content, false,
                timestamp_millis datetime, timestamp_millis datetime⟩] := by
          simp [create_todo_handler, hdup, upsert]
        rw [hres]
        constructor
        · refine nodup_map_append_single Row.id _ _ (nodup_map_filter Row.id _ _ hid) ?_
          intro r hr
          have := (List.mem_filter.mp hr).2
          simpa using this
        · refine nodup_map_append_single Row.title _ _ (nodup_map_filter Row.title _ _ ht) ?_
          intro r hr
          exact hfresh r (List.mem_filter.mp hr).1
    · simpa [create_todo_handler, hdup] using ⟨hid, ht⟩

/-- The delete handler preserves uniqueness of ids and of titles. -/
theorem delete_preserves_uniqueness (id : String) (checkDb deleteDb : DbOutcome)
    (store : List Row) (hid : idsUnique store) (ht : titlesUnique store) :
    idsUnique (delete_todo_handler id checkDb deleteDb store).2 ∧
    titlesUnique (delete_todo_handler id checkDb deleteDb store).2 := by
  cases checkDb with
  | fail e => simpa [delete_todo_handler] using ⟨hid, ht⟩
  | ok =>
    by_cases hemp : (store.filter (fun r => r.id == id)).isEmpty = true
    · simpa [delete_todo_handler, hemp] using ⟨hid, ht⟩
    · cases deleteDb with
      | fail e => simpa [delete_todo_handler, hemp] using ⟨hid, ht⟩
      | ok =>
        have hres : (delete_todo_handler id .ok .ok store).2 =
            store.filter (fun r => r.id ≠ id) := by
          simp [delete_todo_handler, hemp]
        rw [hres]
        exact ⟨nodup_map_filter Row.id _ _ hid, nodup_map_filter Row.title _ _ ht⟩

/-- The edit handler preserves uniqueness of ids unconditionally, and of
titles whenever the merged title does not duplicate another stored row's. -/
theorem edit_preserves_uniqueness (id : String) (body : UpdateTodoSchema) (datetime : Int)
    (selectDb updateDb : DbOutcome) (store : List Row)
    (hid : idsUnique store) (ht : titlesUnique store)
    (hfresh : ∀ row, (store.filter (fun r => r.id == id)).head? = some row →
      ∀ r ∈ store, r.id ≠ id → r.title ≠ body.title.getD row.title) :
    idsUnique (edit_todo_handler id body datetime selectDb updateDb store).2 ∧
    titlesUnique (edit_todo_handler id body datetime selectDb updateDb store).2 := by
  cases selectDb with
  | fail e => simpa [edit_todo_handler] using ⟨hid, ht⟩
  | ok =>
    cases hh : (store.filter (fun r => r.id == id)).head? with
    | none => simpa [edit_todo_handler, hh] using ⟨hid, ht⟩
    | some row =>
      cases updateDb with
      | fail e => simpa [edit_todo_handler, hh] using ⟨hid, ht⟩
      | ok =>
        have hres : (edit_todo_handler id body datetime .ok .ok store).2 =
            store.map (fun r =>
              if r.id == id then
                { r with title := body.title.getD row.title,
                         content := body.content.getD row.content,
                         completed := body.completed.getD row.completed,
                         updated_at := timestamp_millis datetime }
              else r) := by
          simp [edit_todo_handler, hh, decodeRow]
        rw [hres]
        have hid' : store.Pairwise (fun a b => a.id ≠ b.id) := List.pairwise_map.mp hid
        have ht' : store.Pairwise (fun a b => a.title ≠ b.title) := List.pairwise_map.mp ht
        constructor
        · show (List.map _ _).Nodup
          rw [List.map_map]
          have : (Row.id ∘ fun r =>
              if r.id == id then
                { r with title := body.title.getD row.title,
                         content := body.content.getD row.content,
                         completed := body.completed.getD row.completed,
                         updated_at := timestamp_millis datetime }
              else r) = Row.id := by
            funext r
            by_cases h : r.id = id <;> simp [h]
          rw [this]
          exact hid
        · show (List.map _ _).Nodup
          rw [List.map_map]
          refine List.pairwise_map.mpr ?_
          refine List.Pairwise.imp_of_mem ?_ (ht'.and hid')
          intro a b ha hb hab
          rcases hab with ⟨htit, hids⟩
          by_cases ha' : a.id = id
          · by_cases hb' : b.id = id
            · exact absurd (ha'.trans hb'.symm) hids
            · have hbt := hfresh row hh b hb hb'
              simp only [Function.comp_apply]
              rw [if_pos (by simp [ha']), if_neg (by simp [hb'])]
              exact fun hEq => hbt hEq.symm
          · by_cases hb' : b.id = id
            · have hat := hfresh row hh a ha ha'
              simp only [Function.comp_apply]
              rw [if_neg (by simp [ha']), if_pos (by simp [hb'])]
              exact hat
            · simp only [Function.comp_apply]
              rw [if_neg (by simp [ha']), if_neg (by simp [hb'])]
              exact htit

/-- C1 (counterexample): from a store whose two rows have the distinct titles
"a" and "b", a successful edit of the row with id "2" setting its title to
"a" produces a store in which two rows share the title "a": the edit handler
performs no uniqueness check, so title uniqueness is not preserved by every
operation. -/
theorem edit_breaks_title_uniqueness_cex :
    titlesUnique [⟨"1", "a", "c1", false, 0, 0⟩, ⟨"2", "b", "c2", false, 0, 0⟩] ∧
    (edit_todo_handler "2" ⟨some "a", none, none⟩ 0 .ok .ok
        [⟨"1", "a", "c1", false, 0, 0⟩, ⟨"2", "b", "c2", false, 0, 0⟩]).1 =
      .okSingle ⟨"success", ⟨⟨some "2", "a", "c2", some false, some 0, some 0⟩⟩⟩ ∧
    ¬ titlesUnique (edit_todo_handler "2" ⟨some "a", none, none⟩ 0 .ok .ok
        [⟨"1", "a", "c1", false, 0, 0⟩, ⟨"2", "b", "c2", false, 0, 0⟩]).2 := by
  decide

/-- C1 (amended): starting from a store with unique ids (the primary-key
guarantee) and unique titles, every successful or failed create and delete
preserves both, and an edit preserves both whenever the merged title does not
duplicate the title of another stored row; the edit handler itself checks
nothing, so this side condition is needed. -/
theorem crud_uniqueness_invariant (store : List Row)
    (hid : idsUnique store) (ht : titlesUnique store) :
    (∀ body uuid_id datetime checkDb insertDb,
      idsUnique (create_todo_handler body uuid_id datetime checkDb insertDb store).2 ∧
      titlesUnique (create_todo_handler body uuid_id datetime checkDb insertDb store).2) ∧
    (∀ id checkDb deleteDb,
      idsUnique (delete_todo_handler id checkDb deleteDb store).2 ∧
      titlesUnique (delete_todo_handler id checkDb deleteDb store).2) ∧
    (∀ id body datetime selectDb updateDb,
      (∀ row, (store.filter (fun r => r.id == id)).head? = some row →
        ∀ r ∈ store, r.id ≠ id → r.title ≠ body.title.getD row.title) →
      idsUnique (edit_todo_handler id body datetime selectDb updateDb store).2 ∧
      titlesUnique (edit_todo_handler id body datetime selectDb updateDb store).2) :=
  ⟨fun body uuid_id datetime checkDb insertDb =>
      create_preserves_uniqueness body uuid_id datetime checkDb insertDb store hid ht,
    fun id checkDb deleteDb =>
      delete_preserves_uniqueness id checkDb deleteDb store hid ht,
    fun id body datetime selectDb updateDb hfresh =>
      edit_preserves_uniqueness id body datetime selectDb updateDb store hid ht hfresh⟩

theorem crud_uniqueness_invariant_witness :
    titlesUnique (create_todo_handler ⟨none, "t", "c", none, none, none⟩ "u" 0 .ok .ok
      [⟨"1", "a", "c1", false, 0, 0⟩]).2 :=
  ((crud_uniqueness_invariant [⟨"1", "a", "c1", false, 0, 0⟩] (by decide) (by decide)).1
    ⟨none, "t", "c", none, none, none⟩ "u" 0 .ok .ok).2

/-- C2: when no stored row carries the requested title and the generated
UUID is fresh (freshness of the UUID-v4 generator is an assumption on the
environment, injected as a hypothesis), the create handler succeeds and the
returned entity carries exactly the generated id, `completed = false`, and
`createdAt = updatedAt =` the creation instant; the id differs from every
previously issued id. -/
theorem create_fresh_title_spec (body : Todo) (uuid_id : String) (datetime : Int)
    (store : List Row)
    (htitle : ∀ r ∈ store, r.title ≠ body.title)
    (huuid : ∀ r ∈ store, r.id ≠ uuid_id) :
    (create_todo_handler body uuid_id datetime .ok .ok store).1 =
      .okSingle ⟨"success", ⟨⟨some uuid_id, body.title, body.content, some false,
        some datetime, some datetime⟩⟩⟩ ∧
    ∀ r ∈ store, some uuid_id ≠ some r.id := by
  have hfilter : store.filter (fun r => r.title == body.title) = [] :=
    List.filter_eq_nil_iff.mpr (fun r hr => by simpa using htitle r hr)
  constructor
  · simp [create_todo_handler, hfilter]
  · intro r hr
    simpa using fun h => huuid r hr h.symm

theorem create_fresh_title_spec_witness :
    (create_todo_handler ⟨none, "t", "c", none, none, none⟩ "u" 7 .ok .ok
        [⟨"1", "a", "c1", false, 0, 0⟩]).1 =
      .okSingle ⟨"success", ⟨⟨some "u", "t", "c", some false, some 7, some 7⟩⟩⟩ ∧
    ∀ r ∈ [(⟨"1", "a", "c1", false, 0, 0⟩ : Row)], some "u" ≠ some r.id :=
  create_fresh_title_spec ⟨none, "t", "c", none, none, none⟩ "u" 7
    [⟨"1", "a", "c1", false, 0, 0⟩] (by decide) (by decide)

/-- C3: for a stored row found by id, the edit handler's merged entity takes
each of title, content, completed from the body when present there, and from
the stored row when absent. -/
theorem edit_merge_spec (id : String) (body : UpdateTodoSchema) (datetime : Int)
    (store : List Row) (row : Row)
    (hrow : (store.filter (fun r => r.id == id)).head? = some row) :
    ∃ todo, (edit_todo_handler id body datetime .ok .ok store).1 =
        .okSingle ⟨"success", ⟨todo⟩⟩ ∧
      ((∀ t, body.title = some t → todo.title = t) ∧
        (body.title = none → todo.title = row.title)) ∧
      ((∀ c, body.content = some c → todo.content = c) ∧
        (body.content = none → todo.content = row.content)) ∧
      ((∀ b, body.completed = some b → todo.completed = some b) ∧
        (body.completed = none → todo.completed = some row.completed)) := by
  refine ⟨⟨some id, body.title.getD row.title, body.content.getD row.content,
      some (body.completed.getD row.completed),
      some (from_timestamp_millis row.created_at), some datetime⟩, ?_, ?_, ?_, ?_⟩
  · simp [edit_todo_handler, hrow, decodeRow]
  · exact ⟨fun t ht => by simp [ht], fun ht => by simp [ht]⟩
  · exact ⟨fun c hc => by simp [hc], fun hc => by simp [hc]⟩
  · exact ⟨fun b hb => by simp [hb], fun hb => by simp [hb]⟩

theorem edit_merge_spec_witness :
    ∃ todo, (edit_todo_handler "1" ⟨some "t2", none, some true⟩ 9 .ok .ok
        [⟨"1", "t", "c", false, 3, 5⟩]).1 = .okSingle ⟨"success", ⟨todo⟩⟩ ∧
      ((∀ t, (some "t2" : Option String) = some t → todo.title = t) ∧
        ((some "t2" : Option String) = none → todo.title = "t")) ∧
      ((∀ c, (none : Option String) = some c → todo.content = c) ∧
        ((none : Option String) = none → todo.content = "c")) ∧
      ((∀ b, (some true : Option Bool) = some b → todo.completed = some b) ∧
        ((some true : Option Bool) = none → todo.completed = some false)) :=
  edit_merge_spec "1" ⟨some "t2", none, some true⟩ 9
    [⟨"1", "t", "c", false, 3, 5⟩] ⟨"1", "t", "c", false, 3, 5⟩ (by decide)

/-- C4: for `page ≥ 1` and `limit ≥ 1`, the list handler returns exactly the
slice of the decoded todo sequence obtained by skipping `(page-1)*limit`
items and taking `limit`, and the envelope's `results` field is the length
of that returned page. -/
theorem list_pagination_spec (page limit : Nat) (store : List Row)
    (hp : 1 ≤ page) (_hl : 1 ≤ limit) :
    todos_list_handler ⟨some page, some limit⟩ .ok store =
      some (.okList ⟨"success",
        (((store.map decodeRow).drop ((page - 1) * limit)).take limit).length,
        ((store.map decodeRow).drop ((page - 1) * limit)).take limit⟩) := by
  simp [todos_list_handler, checkedSub, hp]

theorem list_pagination_spec_witness :
    todos_list_handler ⟨some 2, some 1⟩ .ok
        [⟨"1", "a", "c", false, 0, 0⟩, ⟨"2", "b", "d", false, 1, 1⟩] =
      some (.okList ⟨"success",
        ((([⟨"1", "a", "c", false, 0, 0⟩,
            (⟨"2", "b", "d", false, 1, 1⟩ : Row)].map decodeRow).drop ((2 - 1) * 1)).take 1).length,
        (([⟨"1", "a", "c", false, 0, 0⟩,
            (⟨"2", "b", "d", false, 1, 1⟩ : Row)].map decodeRow).drop ((2 - 1) * 1)).take 1⟩) :=
  list_pagination_spec 2 1 _ (by decide) (by decide)

/-- C5: for an id matching no stored row, the get, edit, and delete handlers
each return the not-found failure envelope (status "fail"); and after a
successful delete of a present id from any store, a subsequent get of that id
returns the same not-found failure. -/
theorem not_found_spec (id : String) (store : List Row) (body : UpdateTodoSchema)
    (datetime : Int)
    (habsent : ∀ r ∈ store, r.id ≠ id) :
    get_todo_handler id .ok store =
      .notFound ⟨"fail", "Todo with ID: " ++ id ++ " not found"⟩ ∧
    (edit_todo_handler id body datetime .ok .ok store).1 =
      .notFound ⟨"fail", "Todo with ID: " ++ id ++ " not found"⟩ ∧
    (delete_todo_handler id .ok .ok store).1 =
      .notFound ⟨"fail", "Todo with ID: " ++ id ++ " not found"⟩ ∧
    ∀ store2 r0, r0 ∈ store2 → r0.id = id →
      (delete_todo_handler id .ok .ok store2).1 = .noContent ∧
      get_todo_handler id .ok (delete_todo_handler id .ok .ok store2).2 =
        .notFound ⟨"fail", "Todo with ID: " ++ id ++ " not found"⟩ := by
  have hfilter : store.filter (fun r => r.id == id) = [] :=
    List.filter_eq_nil_iff.mpr (fun r hr => by simpa using habsent r hr)
  refine ⟨?_, ?_, ?_, ?_⟩
  · simp [get_todo_handler, hfilter]
  · simp [edit_todo_handler, hfilter]
  · simp [delete_todo_handler, hfilter]
  · intro store2 r0 hr0 hid0
    have hmem : r0 ∈ store2.filter (fun r => r.id == id) :=
      List.mem_filter.mpr ⟨hr0, by simp [hid0]⟩
    have hne : (store2.filter (fun r => r.id == id)).isEmpty = false := by
      cases hh : store2.filter (fun r => r.id == id) with
      | nil => rw [hh] at hmem; cases hmem
      | cons a l => simp
    have hdel : delete_todo_handler id .ok .ok store2 =
        (.noContent, store2.filter (fun r => r.id ≠ id)) := by
      simp [delete_todo_handler, hne]
    have hnil : ((store2.filter (fun r => r.id ≠ id)).filter (fun r => r.id == id)) = [] := by
      refine List.filter_eq_nil_iff.mpr ?_
      intro a ha
      have h2 := (List.mem_filter.mp ha).2
      simp only [decide_eq_true_eq] at h2
      simp [h2]
    rw [hdel]
    have hget : get_todo_handler id .ok (store2.filter (fun r => r.id ≠ id)) =
        .notFound ⟨"fail", "Todo with ID: " ++ id ++ " not found"⟩ := by
      unfold get_todo_handler
      rw [hnil]
      rfl
    exact ⟨rfl, hget⟩

theorem not_found_spec_witness :
    get_todo_handler "9" .ok [⟨"1", "a", "c", false, 0, 0⟩] =
      .notFound ⟨"fail", "Todo with ID: " ++ "9" ++ " not found"⟩ ∧
    (edit_todo_handler "9" ⟨none, none, none⟩ 4 .ok .ok [⟨"1", "a", "c", false, 0, 0⟩]).1 =
      .notFound ⟨"fail", "Todo with ID: " ++ "9" ++ " not found"⟩ ∧
    (delete_todo_handler "9" .ok .ok [⟨"1", "a", "c", false, 0, 0⟩]).1 =
      .notFound ⟨"fail", "Todo with ID: " ++ "9" ++ " not found"⟩ ∧
    ∀ store2 r0, r0 ∈ store2 → r0.id = "9" →
      (delete_todo_handler "9" .ok .ok store2).1 = .noContent ∧
      get_todo_handler "9" .ok (delete_todo_handler "9" .ok .ok store2).2 =
        .notFound ⟨"fail", "Todo with ID: " ++ "9" ++ " not found"⟩ :=
  not_found_spec "9" [⟨"1", "a", "c", false, 0, 0⟩] ⟨none, none, none⟩ 4 (by decide)

/-- C6: creating a todo with a title that is fresh in the store succeeds, and
a second sequential create with the identical title is rejected with the
conflict envelope (status "fail", message "Todo with title: ... already
exists") and leaves the store exactly as the first create left it, whatever
the outcome of the insert query would have been. -/
theorem duplicate_title_conflict_spec (body1 body2 : Todo) (u1 u2 : String)
    (d1 d2 : Int) (insertDb : DbOutcome) (store : List Row)
    (hfresh : ∀ r ∈ store, r.title ≠ body1.title)
    (hsame : body2.title = body1.title) :
    (create_todo_handler body1 u1 d1 .ok .ok store).1 =
      .okSingle ⟨"success", ⟨⟨some u1, body1.title, body1.content, some false,
        some d1, some d1⟩⟩⟩ ∧
    (create_todo_handler body2 u2 d2 .ok insertDb
        (create_todo_handler body1 u1 d1 .ok .ok store).2).1 =
      .conflict ⟨"fail", "Todo with title: '" ++ body2.title ++ "' already exists"⟩ ∧
    (create_todo_handler body2 u2 d2 .ok insertDb
        (create_todo_handler body1 u1 d1 .ok .ok store).2).2 =
      (create_todo_handler body1 u1 d1 .ok .ok store).2 := by
  have hfilter : store.filter (fun r => r.title == body1.title) = [] :=
    List.filter_eq_nil_iff.mpr (fun r hr => by simpa using hfresh r hr)
  have hs1 : (create_todo_handler body1 u1 d1 .ok .ok store).2 =
      store.filter (fun r => r.id ≠ u1) ++
        [⟨u1, body1.title, body1.content, false, timestamp_millis d1, timestamp_millis d1⟩] := by
    simp [create_todo_handler, hfilter, upsert]
  refine ⟨by simp [create_todo_handler, hfilter], ?_, ?_⟩
  · rw [hs1]
    simp [create_todo_handler, List.filter_append, hsame]
  · rw [hs1]
    simp [create_todo_handler, List.filter_append, hsame]

theorem duplicate_title_conflict_spec_witness :
    (create_todo_handler ⟨none, "t", "c", none, none, none⟩ "u1" 1 .ok .ok []).1 =
      .okSingle ⟨"success", ⟨⟨some "u1", "t", "c", some false, some 1, some 1⟩⟩⟩ ∧
    (create_todo_handler ⟨none, "t", "c2", none, none, none⟩ "u2" 2 .ok .ok
        (create_todo_handler ⟨none, "t", "c", none, none, none⟩ "u1" 1 .ok .ok []).2).1 =
      .conflict ⟨"fail", "Todo with title: '" ++ "t" ++ "' already exists"⟩ ∧
    (create_todo_handler ⟨none, "t", "c2", none, none, none⟩ "u2" 2 .ok .ok
        (create_todo_handler ⟨none, "t", "c", none, none, none⟩ "u1" 1 .ok .ok []).2).2 =
      (create_todo_handler ⟨none, "t", "c", none, none, none⟩ "u1" 1 .ok .ok []).2 :=
  duplicate_title_conflict_spec ⟨none, "t", "c", none, none, none⟩
    ⟨none, "t", "c2", none, none, none⟩ "u1" "u2" 1 2 .ok [] (by decide) (by decide)

/-- C7 (counterexample): editing the stored row (stored `updated_at` 5 ms)
with an empty body at an edit-time clock reading equal to the same instant
(5000000 ns) succeeds and leaves every content field and `createdAt`
unchanged, but the new `updatedAt` equals the previous one instead of being
strictly later: the handler merely sets `updatedAt` to the current clock
value, which need not exceed the stored one. -/
theorem edit_updatedAt_not_strictly_later_cex :
    (edit_todo_handler "1" ⟨none, none, none⟩ 5000000 .ok .ok
        [⟨"1", "t", "c", false, 3, 5⟩]).1 =
      .okSingle ⟨"success", ⟨⟨some "1", "t", "c", some false, some 3000000, some 5000000⟩⟩⟩ ∧
    ¬ (from_timestamp_millis 5 < (5000000 : Int)) := by
  decide

/-- C7 (amended): editing a stored row with an empty body leaves title,
content, completed, and `createdAt` at their stored values and sets
`updatedAt` to the edit-time clock reading; that reading is strictly later
than the previous `updatedAt` exactly under the environmental assumption that
the clock has advanced past it (taken as a hypothesis). -/
theorem edit_empty_body_spec (id : String) (datetime : Int) (store : List Row) (row : Row)
    (hrow : (store.filter (fun r => r.id == id)).head? = some row)
    (hclock : from_timestamp_millis row.updated_at < datetime) :
    (edit_todo_handler id ⟨none, none, none⟩ datetime .ok .ok store).1 =
      .okSingle ⟨"success", ⟨⟨some id, row.title, row.content, some row.completed,
        some (from_timestamp_millis row.created_at), some datetime⟩⟩⟩ ∧
    from_timestamp_millis row.updated_at < datetime :=
  ⟨by simp [edit_todo_handler, hrow, decodeRow], hclock⟩

theorem edit_empty_body_spec_witness :
    (edit_todo_handler "1" ⟨none, none, none⟩ 5000001 .ok .ok
        [⟨"1", "t", "c", false, 3, 5⟩]).1 =
      .okSingle ⟨"success", ⟨⟨some "1", "t", "c", some false,
        some (from_timestamp_millis 3), some 5000001⟩⟩⟩ ∧
    from_timestamp_millis 5 < (5000001 : Int) :=
  edit_empty_body_spec "1" 5000001 [⟨"1", "t", "c", false, 3, 5⟩]
    ⟨"1", "t", "c", false, 3, 5⟩ (by decide) (by decide)

/-- C8 (counterexample): creating at clock reading 1 ns returns an entity
with `createdAt = updatedAt = 1`, but fetching it back by the returned id
yields `createdAt = updatedAt = 0`: the insert stores the timestamps
truncated to milliseconds while the create response carries the untruncated
clock value, so the fetched timestamps are not identical to the created
ones. -/
theorem create_get_round_trip_cex :
    (create_todo_handler ⟨none, "t", "c", none, none, none⟩ "u" 1 .ok .ok []).1 =
      .okSingle ⟨"success", ⟨⟨some "u", "t", "c", some false, some 1, some 1⟩⟩⟩ ∧
    get_todo_handler "u" .ok
        (create_todo_handler ⟨none, "t", "c", none, none, none⟩ "u" 1 .ok .ok []).2 ≠
      .okSingle ⟨"success", ⟨⟨some "u", "t", "c", some false, some 1, some 1⟩⟩⟩ ∧
    get_todo_handler "u" .ok
        (create_todo_handler ⟨none, "t", "c", none, none, none⟩ "u" 1 .ok .ok []).2 =
      .okSingle ⟨"success", ⟨⟨some "u", "t", "c", some false, some 0, some 0⟩⟩⟩ := by
  decide

/-- C8 (amended): creating a todo with a fresh title and then fetching it by
the returned id yields identical title, content, and completed, and yields
`createdAt`/`updatedAt` equal to the creation instant truncated to
millisecond precision; they equal the create response's values exactly when
the creation instant is a whole number of milliseconds. -/
theorem create_get_round_trip_spec (body : Todo) (uuid_id : String) (datetime : Int)
    (store : List Row)
    (htitle : ∀ r ∈ store, r.title ≠ body.title) :
    (create_todo_handler body uuid_id datetime .ok .ok store).1 =
      .okSingle ⟨"success", ⟨⟨some uuid_id, body.title, body.content, some false,
        some datetime, some datetime⟩⟩⟩ ∧
    get_todo_handler uuid_id .ok (create_todo_handler body uuid_id datetime .ok .ok store).2 =
      .okSingle ⟨"success", ⟨⟨some uuid_id, body.title, body.content, some false,
        some (from_timestamp_millis (timestamp_millis datetime)),
        some (from_timestamp_millis (timestamp_millis datetime))⟩⟩⟩ ∧
    ((1000000 : Int) ∣ datetime →
      from_timestamp_millis (timestamp_millis datetime) = datetime) := by
  have hfilter : store.filter (fun r => r.title == body.title) = [] :=
    List.filter_eq_nil_iff.mpr (fun r hr => by simpa using htitle r hr)
  have hs1 : (create_todo_handler body uuid_id datetime .ok .ok store).2 =
      store.filter (fun r => r.id ≠ uuid_id) ++
        [⟨uuid_id, body.title, body.content, false,
          timestamp_millis datetime, timestamp_millis datetime⟩] := by
    simp [create_todo_handler, hfilter, upsert]
  refine ⟨by simp [create_todo_handler, hfilter], ?_, ?_⟩
  · have hnil : ((store.filter (fun r => r.id ≠ uuid_id)).filter
        (fun r => r.id == uuid_id)) = [] := by
      refine List.filter_eq_nil_iff.mpr ?_
      intro a ha
      have h2 := (List.mem_filter.mp ha).2
      simp only [decide_eq_true_eq] at h2
      simp [h2]
    have hget : get_todo_handler uuid_id .ok
        (store.filter (fun r => r.id ≠ uuid_id) ++
          [⟨uuid_id, body.title, body.content, false,
            timestamp_millis datetime, timestamp_millis datetime⟩]) =
        .okSingle ⟨"success", ⟨⟨some uuid_id, body.title, body.content, some false,
          some (from_timestamp_millis (timestamp_millis datetime)),
          some (from_timestamp_millis (timestamp_millis datetime))⟩⟩⟩ := by
      unfold get_todo_handler
      rw [List.filter_append, hnil]
      simp [decodeRow]
    rw [hs1]
    exact hget
  · intro hd
    unfold from_timestamp_millis timestamp_millis
    rw [Int.fdiv_eq_ediv _ (by norm_num)]
    exact Int.ediv_mul_cancel hd

theorem create_get_round_trip_spec_witness :
    (create_todo_handler ⟨none, "t", "c", none, none, none⟩ "u" 2000000 .ok .ok []).1 =
      .okSingle ⟨"success", ⟨⟨some "u", "t", "c", some false,
        some 2000000, some 2000000⟩⟩⟩ ∧
    get_todo_handler "u" .ok
        (create_todo_handler ⟨none, "t", "c", none, none, none⟩ "u" 2000000 .ok .ok []).2 =
      .okSingle ⟨"success", ⟨⟨some "u", "t", "c", some false,
        some (from_timestamp_millis (timestamp_millis 2000000)),
        some (from_timestamp_millis (timestamp_millis 2000000))⟩⟩⟩ ∧
    ((1000000 : Int) ∣ 2000000 →
      from_timestamp_millis (timestamp_millis 2000000) = 2000000) :=
  create_get_round_trip_spec ⟨none, "t", "c", none, none, none⟩ "u" 2000000 [] (by decide)

/-- C9: whenever a store query fails, each handler returns the internal-error
envelope with status "error" and a message extending the store's error text,
and leaves the store exactly as it was when the failure occurred: the list
handler returns no partial results, a failed check or insert leaves the
store untouched, and a failed update or delete likewise mutates nothing. -/
theorem storage_error_spec (e : String) (opts : QueryOptions) (store : List Row)
    (body : Todo) (uuid_id : String) (datetime : Int)
    (id : String) (ub : UpdateTodoSchema)
    (insertDb updateDb deleteDb : DbOutcome) (row : Row)
    (hfresh : ∀ r ∈ store, r.title ≠ body.title)
    (hrow : (store.filter (fun r => r.id == id)).head? = some row) :
    todos_list_handler opts (.fail e) store =
      some (.internalServerError ⟨"error", "Database error: " ++ e⟩) ∧
    create_todo_handler body uuid_id datetime (.fail e) insertDb store =
      (.internalServerError ⟨"error", "Database error: " ++ e⟩, store) ∧
    create_todo_handler body uuid_id datetime .ok (.fail e) store =
      (.internalServerError ⟨"error", "Failed to create todo: " ++ e⟩, store) ∧
    get_todo_handler id (.fail e) store =
      .internalServerError ⟨"error", "Database error: " ++ e⟩ ∧
    edit_todo_handler id ub datetime (.fail e) updateDb store =
      (.internalServerError ⟨"error", "Database error: " ++ e⟩, store) ∧
    edit_todo_handler id ub datetime .ok (.fail e) store =
      (.internalServerError ⟨"error", "Failed to update todo: " ++ e⟩, store) ∧
    delete_todo_handler id (.fail e) deleteDb store =
      (.internalServerError ⟨"error", "Database error: " ++ e⟩, store) ∧
    delete_todo_handler id .ok (.fail e) store =
      (.internalServerError ⟨"error", "Failed to delete todo: " ++ e⟩, store) := by
  have hfilter : store.filter (fun r => r.title == body.title) = [] :=
    List.filter_eq_nil_iff.mpr (fun r hr => by simpa using hfresh r hr)
  have hne : (store.filter (fun r => r.id == id)).isEmpty = false := by
    cases hh : store.filter (fun r => r.id == id) with
    | nil => rw [hh] at hrow; cases hrow
    | cons a l => simp
  refine ⟨rfl, rfl, ?_, rfl, rfl, ?_, rfl, ?_⟩
  · simp [create_todo_handler, hfilter]
  · simp [edit_todo_handler, hrow]
  · simp [delete_todo_handler, hne]

theorem storage_error_spec_witness :
    todos_list_handler ⟨none, none⟩ (.fail "boom") [⟨"1", "a", "c", false, 0, 0⟩] =
      some (.internalServerError ⟨"error", "Database error: " ++ "boom"⟩) :=
  (storage_error_spec "boom" ⟨none, none⟩ [⟨"1", "a", "c", false, 0, 0⟩]
    ⟨none, "b", "x", none, none, none⟩ "u" 0 "1" ⟨none, none, none⟩
    .ok .ok .ok ⟨"1", "a", "c", false, 0, 0⟩ (by decide) (by decide)).1

/-- C10: the pagination offset `(page - 1) * limit` uses `usize` subtraction,
which is defined only when `page ≥ 1`: for the representable input
`page = 0` the subtraction overflows (a panic in debug builds), modelled here
by the handler producing no response, while every `page ≥ 1` yields one. -/
theorem list_page_zero_underflow_spec :
    (∀ limit store, todos_list_handler ⟨some 0, limit⟩ .ok store = none) ∧
    (∀ page limit store, 1 ≤ page →
      (todos_list_handler ⟨some page, limit⟩ .ok store).isSome = true) := by
  constructor
  · intro limit store
    simp [todos_list_handler, checkedSub]
  · intro page limit store hp
    simp [todos_list_handler, checkedSub, hp]

theorem list_page_zero_underflow_spec_witness :
    todos_list_handler ⟨some 0, some 10⟩ .ok [] = none ∧
    (todos_list_handler ⟨some 1, some 10⟩ .ok []).isSome = true :=
  ⟨list_page_zero_underflow_spec.1 (some 10) [],
    list_page_zero_underflow_spec.2 1 (some 10) [] (by decide)⟩

end Crud
